import Mathlib

/-
  Verification of the tournament engine (src/match.py) of the
  jelyman2/tournament repository.

  The embedding translates the functions of src/match.py into pure Lean
  functions over an explicit database state.  The storage backend
  (database.py) and the audit logger (tools.py) are repository modules that
  are not part of src/; every definition standing in for them carries a doc
  comment starting with "Modelled from the spec:" and is kept as close to
  the storage contract of spec section 6 and the audit-log contract of
  section 4.5 as possible.  Everything else is translated directly from
  src/match.py; line numbers in comments refer to that file.
-/

namespace Tournament

/-- Error taxonomy of spec section 7: ValidationError (malformed input),
NotFoundError (referenced player or match does not exist), EmptyPoolError
(pairing attempted with zero players).  Python exceptions of the source are
mapped onto it: AttributeError raised by name validation is a validation
error, the ValueError of go_match for an unresolved player id is a
not-found error.  The extra constructor unboundLocal models the Python
UnboundLocalError (reading a local variable before any assignment), which
is not an error the spec plans for but is reachable in list_matches. -/
inductive Err where
  | validation (msg : String)
  | notFound (msg : String)
  | emptyPool (msg : String)
  | unboundLocal (msg : String)
deriving Repr, DecidableEq

/-- Row of the players table: id serial primary key, name, country, code
(schema from createdb/test.py: players(id, name, country, code)). -/
structure PlayerRow where
  id : Nat
  name : String
  country : String
  code : String
deriving Repr, DecidableEq

/-- Row of the matches table: id serial, p1 and p2 (the player ids as the
strings that were passed to go_match), winner (a player code), timestamp
(schema from test.py: matches(id, p1, p2, winner, timestamp)). -/
structure MatchRow where
  id : Nat
  p1 : String
  p2 : String
  winner : String
  ts : Nat
deriving Repr, DecidableEq

/-- Row of the auditlog table as written by tools.logger(entry, action). -/
structure LogRow where
  entry : String
  action : String
deriving Repr, DecidableEq

/-- Database state: the three tables plus the serial-id counters of the
backend. -/
structure DB where
  players : List PlayerRow
  matchRows : List MatchRow
  auditlog : List LogRow
  nextPlayerId : Nat
  nextMatchId : Nat
deriving Repr, DecidableEq

/-- Modelled from the spec: tools.logger (tools.py is not under src/).
Spec section 4.5: append(entry, action, unique_id) appends one audit-log
entry and always succeeds. -/
def logger (db : DB) (entry : String) (action : String) : DB :=
  { db with auditlog := db.auditlog ++ [⟨entry, action⟩] }

/-- Modelled from the spec: db.register_player (database.py is not under
src/).  Spec section 6 insert(table, record) -> id: appends one player row
with the backend-assigned serial id.  No uniqueness check of the code is
performed (spec section 4.1). -/
def register_player (db : DB) (name country code : String) : DB :=
  { db with
      players := db.players ++ [⟨db.nextPlayerId, name, country, code⟩],
      nextPlayerId := db.nextPlayerId + 1 }

/-- Modelled from the spec: db.report_match (database.py is not under
src/).  Spec section 4.2: persists one Match row capturing both ids, the
winner code and the current timestamp. -/
def report_match (db : DB) (winner p1 p2 : String) (ts : Nat) : DB :=
  { db with
      matchRows := db.matchRows ++ [⟨db.nextMatchId, p1, p2, winner, ts⟩],
      nextMatchId := db.nextMatchId + 1 }

/-- Modelled from the spec: well-formedness of an id argument, spec
section 4.2: "a well-formed positive integer".  A string is well formed
when it parses as a decimal numeral denoting a positive number. -/
def wellFormedId (s : String) : Bool :=
  if s.data ≠ [] ∧ s.data.all Char.isDigit then
    decide (0 < s.data.foldl (fun n ch => n * 10 + (ch.toNat - 48)) 0)
  else false

/-- Modelled from the spec: db.search("players", "ID", s) (database.py is
not under src/).  Per the storage contract of spec section 6 the BY_ID
query returns the sequence of rows whose id matches; per spec section 4.2
an id argument that is not a well-formed positive integer fails with a
ValidationError (the repository unit tests for go_match assert that a
letter or symbol id raises). -/
def searchPlayersByID (db : DB) (s : String) : Except Err (List PlayerRow) :=
  if wellFormedId s then
    .ok (db.players.filter (fun r => toString r.id == s))
  else
    .error (.validation "Player ID must be a well-formed positive integer.")

/-- Modelled from the spec: db.search("players", "CODE", c): the BY_CODE
query of spec section 6, returning every player row whose code matches. -/
def searchPlayersByCODE (db : DB) (c : String) : List PlayerRow :=
  db.players.filter (fun r => r.code == c)

/-- Modelled from the spec: db.search("matches", "ID", s): the BY_ID query
of spec section 6 on the matches table, with the same well-formedness
check on the id argument as for players. -/
def searchMatchesByID (db : DB) (s : String) : Except Err (List MatchRow) :=
  if wellFormedId s then
    .ok (db.matchRows.filter (fun r => toString r.id == s))
  else
    .error (.validation "Match ID must be a well-formed positive integer.")

/-- Set of disallowed symbol characters of src/match.py line 45, the
regular expression class [!@#$%^&*()~`+=] (the backtick written by code
point to keep the source plain). -/
def disallowedSymbols : List Char :=
  ['!', '@', '#', '$', '%', Char.ofNat 94, '&', '*', '(', ')', Char.ofNat 126,
   Char.ofNat 96, '+', '=']

/-- Name validation of new_player, src/match.py lines 39 to 46: the four
sequential checks, each raising AttributeError with its own message; the
result is the message of the first violated rule, or none when the name
passes. -/
def name_checks (player_name : String) : Option String :=
  if player_name.data.any Char.isDigit then
    some "Player name is invalid (contains numbers)"
  else if player_name.data.length < 2 then
    some "Player name is less than 2 characters."
  else if !(player_name.data.contains ' ') then
    some "Player name is invalid. (missing surname)"
  else if player_name.data.any (fun c => disallowedSymbols.contains c) then
    some "Player name is invalid. (contains symbol(s))"
  else
    none

/-- Embedding of new_player, src/match.py lines 38 to 63.  The random
7-digit draw of line 53 (random.randrange(1000001, 9999999)) is the
explicit argument r; the country is taken as given (the raw_input prompt
of line 50 only fires when the country argument is empty and is operator
interaction, not engine logic).  On success the audit log receives the
three logger calls of lines 47, 51 and 60 and the player row is inserted
with code = first four characters of the name, lower-cased, concatenated
with the decimal numeral of r (line 53). -/
def new_player (db : DB) (player_name country : String) (r : Nat) :
    DB × Except Err Nat :=
  match name_checks player_name with
  | some msg => (db, .error (.validation msg))
  | none =>
    let db := logger db ("Received player name " ++ player_name) "new_player()"
    let db := logger db ("Received player country " ++ country) "new_player()"
    let code := String.mk ((player_name.data.take 4).map Char.toLower) ++ toString r
    let db := register_player db player_name country code
    let db := logger db
      ("Database entry created for " ++ player_name ++ " from " ++ country ++ ".")
      "new_player()"
    (db, .ok 0)

/-- Resolution of one player-id argument inside go_match, src/match.py
lines 143 to 148 (and 149 to 154 for player 2): the id search may raise;
then two nested for-loops assign player_code from each id-match row and
player_name from each row of the code lookup, so the final values are
those of the last iterations, and the initial empty strings of lines 132
to 135 survive when a loop body never runs. -/
def resolvePlayer (db : DB) (pid : String) : Except Err (String × String) :=
  match searchPlayersByID db pid with
  | .error e => .error e
  | .ok rows =>
    .ok (rows.foldl
      (fun acc row =>
        let code := row.code
        let nm := (searchPlayersByCODE db code).foldl
          (fun _ r2 => r2.name) acc.2
        (code, nm))
      ("", ""))

/-- Embedding of go_match, src/match.py lines 131 to 175.  The random
draw of line 159 (random.randrange(1, 3), value 1 or 2) is the explicit
argument r and the timestamp is ts.  Control flow: the logger call of line
141 precedes both id lookups; the existence check of line 156 raises
before the random draw; the winner is player 1 exactly when r = 2 (lines
162 to 171); one match row is reported at line 172 and the final logger
call is line 173.  The not-found message is carried with "does not"
spelled out where the source contracts it; no claim depends on that
text. -/
def go_match (db : DB) (r ts : Nat) (player_1 player_2 : String) :
    DB × Except Err String :=
  let db := logger db
    ("Starting match between " ++ player_1 ++ " and " ++ player_2) "go_match()"
  match resolvePlayer db player_1 with
  | .error e => (db, .error e)
  | .ok (player_1_code, player_1_name) =>
    match resolvePlayer db player_2 with
    | .error e => (db, .error e)
    | .ok (player_2_code, player_2_name) =>
      if player_1_name = "" ∨ player_2_name = "" then
        (db, .error (.notFound "One of the two players you entered does not exist."))
      else
        let db := logger db ("Generated random number " ++ toString r) "go_match()"
        if r = 2 then
          let db := logger db "Stated that player 1 wins." "go_match()"
          let db := report_match db player_1_code player_1 player_2 ts
          let db := logger db "Reported win to database." "go_match()"
          (db, .ok player_1_code)
        else
          let db := logger db "Stated that player 2 wins." "go_match()"
          let db := report_match db player_2_code player_1 player_2 ts
          let db := logger db "Reported win to database." "go_match()"
          (db, .ok player_2_code)

/-- Embedding of list_players, src/match.py lines 98 to 124: a read-only
listing that nevertheless calls the audit logger twice (lines 103 and
121) around the ALL query. -/
def list_players (db : DB) : DB × List PlayerRow :=
  let db := logger db "Requesting all players in the database." "list_players()"
  let results := db.players
  let db := logger db
    ("Returned " ++ toString results.length ++ " results") "list_players()"
  (db, results)

/-- Modelled from the spec: db.delete_player (database.py is not under
src/), spec section 6 delete(table, id): removes the player rows whose id
matches. -/
def delete_player_row (db : DB) (player : String) : DB :=
  { db with players := db.players.filter (fun r => toString r.id != player) }

/-- Embedding of the delete branch of edit_player, src/match.py lines 68
to 75 and 91 to 94: search by id, raise when no row matches (the source
raises AttributeError "Invalid Player ID.", the NotFoundError of the spec
taxonomy), otherwise delete and append one audit entry. -/
def edit_player_delete (db : DB) (player : String) : DB × Except Err Nat :=
  match searchPlayersByID db player with
  | .error e => (db, .error e)
  | .ok rows =>
    if rows.isEmpty then
      (db, .error (.notFound "Invalid Player ID."))
    else
      let db := delete_player_row db player
      let db := logger db ("Deleted " ++ player ++ " from the database")
        "edit_player()"
      (db, .ok 0)

/-- Modelled from the spec: db.delete_match (database.py is not under
src/), spec section 6 delete(table, id) on the matches table. -/
def delete_match_row (db : DB) (m : String) : DB :=
  { db with matchRows := db.matchRows.filter (fun r => toString r.id != m) }

/-- Embedding of delete_match, src/match.py lines 269 to 282: an empty id
raises ValueError (malformed input, hence validation), otherwise the row
is deleted and one audit entry appended. -/
def delete_match (db : DB) (m : String) : DB × Except Err Nat :=
  if m = "" then
    (db, .error (.validation "An ID # is required."))
  else
    let db := delete_match_row db m
    let db := logger db ("Deleted match " ++ m ++ " from the database")
      "delete_match()"
    (db, .ok 0)

/-- Winner-name resolution step shared by the display loops of
list_matches (src/match.py lines 297 to 303), latest_match and
lookup_match: the inner for-loop over the code lookup reassigns the local
name for every result row, so it keeps its previous value (nameAcc) when
the lookup is empty.  A none accumulator models the local being unbound. -/
def winnerNameStep (db : DB) (nameAcc : Option String) (winnerCode : String) :
    Option String :=
  (searchPlayersByCODE db winnerCode).foldl (fun _ r => some r.name) nameAcc

/-- Display loop over match rows, src/match.py lines 297 to 304 (and 357
to 364): threads the Python local name across iterations; reading it while
unbound (possible in list_matches, which never initialises it) is the
UnboundLocalError; the sentinel "[PLAYER DELETED]" is substituted only
when the local holds the empty string. -/
def listMatchesGo (db : DB) :
    List MatchRow → Option String → Except Err (List String)
  | [], _ => .ok []
  | m :: rest, nameAcc =>
    match winnerNameStep db nameAcc m.winner with
    | none => .error (.unboundLocal "local variable name referenced before assignment")
    | some s =>
      let disp := if s == "" then "[PLAYER DELETED]" else s
      match listMatchesGo db rest (some disp) with
      | .error e => .error e
      | .ok l => .ok (disp :: l)

/-- Embedding of list_matches, src/match.py lines 286 to 312: lists every
match with the winner display name; the local name is never initialised
before the loop, so the loop starts with an unbound accumulator; the two
logger calls are lines 288 and 309. -/
def list_matches (db : DB) : DB × Except Err (List String) :=
  let db := logger db "Listing all matches." "list_matches()"
  match listMatchesGo db db.matchRows none with
  | .error e => (db, .error e)
  | .ok names =>
    let db := logger db ("Returned " ++ toString names.length ++ " results")
      "list_matches"
    (db, .ok names)

/-- Embedding of lookup_match, src/match.py lines 345 to 372: a missing id
raises; the local name is initialised to the empty string at line 351
(the source comments that this prevents the UnboundLocalError when the
winner was deleted), so the loop starts with some "". -/
def lookup_match (db : DB) (m : String) : DB × Except Err (List String) :=
  if m = "" then
    (db, .error (.validation "Missing a match ID."))
  else
    match searchMatchesByID db m with
    | .error e => (db, .error e)
    | .ok results =>
      let db := logger db "Retrieved latest result." "lookup"
      match listMatchesGo db results (some "") with
      | .error e => (db, .error e)
      | .ok names =>
        let db := logger db ("Returned " ++ toString names.length ++ " results")
          "list_matches"
        (db, .ok names)

/-- Comparison used by the sorted() calls of swiss_match, src/match.py
lines 198 and 200: Python compares the row tuples (id, name, country,
code) lexicographically, the id being "the first non-symbol in each
entry". -/
def rowLe (a b : PlayerRow) : Bool :=
  if a.id ≠ b.id then decide (a.id < b.id)
  else if a.name ≠ b.name then decide (a.name < b.name)
  else if a.country ≠ b.country then decide (a.country < b.country)
  else decide (a.code ≤ b.code)

/-- Ascending row order as a proposition, for the sort of line 198. -/
def rowLeP (a b : PlayerRow) : Prop := rowLe a b = true

/-- Descending row order (sorted with reverse=True, line 200). -/
def rowGeP (a b : PlayerRow) : Prop := rowLe b a = true

instance : DecidableRel rowLeP := fun a b =>
  inferInstanceAs (Decidable (rowLe a b = true))

instance : DecidableRel rowGeP := fun a b =>
  inferInstanceAs (Decidable (rowLe b a = true))

/-- Bye selection of swiss_match, src/match.py lines 189 to 194: when the
fetched count is odd, the LAST element of the fetched list, in backend
return order, is popped into the bye slot.  This happens BEFORE the sort
of line 198. -/
def swiss_bye (fetched : List PlayerRow) : Option PlayerRow :=
  if fetched.length % 2 = 1 then fetched.getLast? else none

/-- Remaining pool after the bye pop of src/match.py line 194. -/
def swiss_pool (fetched : List PlayerRow) : List PlayerRow :=
  if fetched.length % 2 = 1 then fetched.dropLast else fetched

/-- The sorted sequence A of src/match.py line 198 (players_list1 after
sorting ascending). -/
def players_list1 (fetched : List PlayerRow) : List PlayerRow :=
  List.insertionSort rowLeP (swiss_pool fetched)

/-- The sequence B of src/match.py line 200 (players_list2, the pool
sorted descending). -/
def players_list2 (fetched : List PlayerRow) : List PlayerRow :=
  List.insertionSort rowGeP (swiss_pool fetched)

/-- Pairing list of swiss_match: element i of the ascending list with
element i of the descending list, exactly the rows displayed side by side
(src/match.py lines 213 to 222) and the zip executed at line 243.  Both
lists are the FULL pool, so the zip has one element per pool member, each
unordered pairing appearing twice. -/
def swiss_pairs (fetched : List PlayerRow) : List (PlayerRow × PlayerRow) :=
  (players_list1 fetched).zip (players_list2 fetched)

/-- Embedding of the pairing-generation phase of swiss_match, src/match.py
lines 179 to 232, as a function of the fetched player list (db.count_players
is database.py code not under src/; per the storage contract of spec
section 6 it returns the row sequence of the players table in unspecified
order, an empty sequence when the table is empty).  The source contains no
empty-pool check and no raise on this path, so the error channel of the
result is never used: every fetched list, the empty one included, yields
ok.  Display-table construction and the logger calls are rendering, left
to the presentation layer per spec section 6. -/
def swiss_match (fetched : List PlayerRow) :
    Except Err (List (PlayerRow × PlayerRow) × Option PlayerRow) :=
  .ok (swiss_pairs fetched, swiss_bye fetched)

/-- Execution loop of swiss_match, src/match.py lines 243 to 251: for each
zipped pair, the round counter increments and go_match is submitted with
the stringified ids; a raise from go_match aborts the remaining rounds but
keeps the database effects of the earlier ones.  Returns the final
database, the number of rounds submitted and whether the loop completed
without error.  The function randf supplies the random draw of round n. -/
def swissExecGo (randf : Nat → Nat) (ts : Nat) :
    DB → List (PlayerRow × PlayerRow) → Nat → DB × Nat × Bool
  | db, [], n => (db, n, true)
  | db, p :: rest, n =>
    match go_match db (randf n) ts (toString p.1.id) (toString p.2.id) with
    | (db2, .error _) => (db2, n + 1, false)
    | (db2, .ok _) => swissExecGo randf ts db2 rest (n + 1)

/-- Execution phase of swiss_match on the pairs generated from the fetched
list (the confirmed branch of src/match.py lines 237 to 256). -/
def swiss_execute (db : DB) (randf : Nat → Nat) (ts : Nat)
    (fetched : List PlayerRow) : DB × Nat × Bool :=
  swissExecGo randf ts db (swiss_pairs fetched) 0

/-- Truth value of "the operation raised": true exactly on the error
results of the embedding. -/
def raises {α : Type} : Except Err α → Bool
  | .error _ => true
  | .ok _ => false

/-- Whitespace-delimited tokens of a name, following the words of the spec
(section 4.1: "a second whitespace-delimited token"); written from the
words of the claim, for comparison against the source validation, which
only tests membership of the space character. -/
def specNameTokens (s : String) : List (List Char) :=
  (s.data.splitOnP Char.isWhitespace).filter (fun t => t != [])

/-- Rejection predicate of claim C6 as the spec words it: the name
contains a digit, is shorter than 2 characters, lacks a second
whitespace-delimited token, or contains a disallowed symbol.  Written from
the words of the spec, not from the source. -/
def spec_rejectName (s : String) : Bool :=
  s.data.any Char.isDigit || decide (s.data.length < 2)
    || decide ((specNameTokens s).length < 2)
    || s.any (fun c => disallowedSymbols.contains c)

/-- Sample player row with id 1. -/
def rowAlice : PlayerRow := ⟨1, "Alice Smith", "USA", "alic1234567"⟩

/-- Sample player row with id 2. -/
def rowBob : PlayerRow := ⟨2, "Bob Jones", "Wales", "bob 7654321"⟩

/-- Sample player row with id 3. -/
def rowCara : PlayerRow := ⟨3, "Cara Low", "Peru", "cara2222222"⟩

/-- Sample database with two players and empty ledgers. -/
def exDB : DB := ⟨[rowAlice, rowBob], [], [], 3, 1⟩

/-- Sample database whose only match references a winner code that no
player row carries (the winner was deleted). -/
def exDanglingDB : DB := ⟨[], [⟨1, "1", "2", "alic1234567", 0⟩], [], 1, 2⟩

/-- Sample database already holding a player whose code collides with the
code new_player generates for the name "James Dean" and draw 1234567. -/
def exCollisionDB : DB := ⟨[⟨1, "Jameson Dean", "US", "jame1234567"⟩], [], [], 2, 1⟩

/-- Logging touches only the audit log. -/
theorem logger_players (db : DB) (e a : String) :
    (logger db e a).players = db.players := rfl

/-- Logging leaves the match ledger unchanged. -/
theorem logger_matchRows (db : DB) (e a : String) :
    (logger db e a).matchRows = db.matchRows := rfl

/-- Player-id resolution only reads the players table, so it is invariant
under logging. -/
theorem resolvePlayer_logger (db : DB) (e a s : String) :
    resolvePlayer (logger db e a) s = resolvePlayer db s := rfl

/-- A malformed id makes the modelled id search of resolvePlayer raise the
validation error. -/
theorem resolvePlayer_malformed (db : DB) (s : String)
    (h : wellFormedId s = false) :
    resolvePlayer db s =
      .error (.validation "Player ID must be a well-formed positive integer.") := by
  simp [resolvePlayer, searchPlayersByID, h]

/-- A well-formed id makes resolvePlayer return some code and name pair. -/
theorem resolvePlayer_wellFormed (db : DB) (s : String)
    (h : wellFormedId s = true) :
    ∃ cn, resolvePlayer db s = .ok cn := by
  simp [resolvePlayer, searchPlayersByID, h]

/-- Unfolding of the result component of new_player: an error exactly
reproduces the message of the first violated name rule. -/
theorem new_player_snd (db : DB) (n c : String) (r : Nat) :
    (new_player db n c r).2 =
      (match name_checks n with
       | some msg => .error (.validation msg)
       | none => .ok 0) := by
  cases h : name_checks n <;> simp [new_player, h]

/-- Characterisation of the four sequential checks as one disjunction. -/
theorem name_checks_isSome (s : String) :
    (name_checks s).isSome =
      (s.data.any Char.isDigit || decide (s.data.length < 2) || !(s.data.contains ' ')
        || s.data.any (fun ch => disallowedSymbols.contains ch)) := by
  unfold name_checks
  split_ifs with h1 h2 h3 h4 <;> simp_all

/-- Error messages of name_checks each name a rule violated by the name. -/
theorem name_checks_some_cases (s msg : String) (h : name_checks s = some msg) :
    (msg = "Player name is invalid (contains numbers)" ∧ s.data.any Char.isDigit = true) ∨
    (msg = "Player name is less than 2 characters." ∧ s.data.length < 2) ∨
    (msg = "Player name is invalid. (missing surname)" ∧ s.data.contains ' ' = false) ∨
    (msg = "Player name is invalid. (contains symbol(s))" ∧
      s.data.any (fun ch => disallowedSymbols.contains ch) = true) := by
  unfold name_checks at h
  split_ifs at h with h1 h2 h3 h4 <;> simp_all

/-- C6 (amended): player registration fails with a ValidationError if and
only if the name contains a digit, is shorter than 2 characters, contains
no space character (the source tests for the space character itself, not
for a second whitespace-delimited token), or contains a disallowed symbol;
and every raised message names a rule the given name violates. -/
theorem new_player_validation_characterization (db : DB) (n c : String) (r : Nat) :
    (raises (new_player db n c r).2 =
      (n.data.any Char.isDigit || decide (n.data.length < 2) || !(n.data.contains ' ')
        || n.data.any (fun ch => disallowedSymbols.contains ch))) ∧
    (∀ msg, (new_player db n c r).2 = .error (.validation msg) →
      (msg = "Player name is invalid (contains numbers)" ∧ n.data.any Char.isDigit = true) ∨
      (msg = "Player name is less than 2 characters." ∧ n.data.length < 2) ∨
      (msg = "Player name is invalid. (missing surname)" ∧ n.data.contains ' ' = false) ∨
      (msg = "Player name is invalid. (contains symbol(s))" ∧
        n.data.any (fun ch => disallowedSymbols.contains ch) = true)) := by
  constructor
  · rw [← name_checks_isSome, new_player_snd]
    cases h : name_checks n <;> simp [raises, h]
  · intro msg hmsg
    rw [new_player_snd] at hmsg
    cases h : name_checks n with
    | none => rw [h] at hmsg; exact absurd hmsg (by simp)
    | some m =>
      rw [h] at hmsg
      simp only [Except.error.injEq, Err.validation.injEq] at hmsg
      exact hmsg ▸ name_checks_some_cases n m h

/-- C6 witness: the name "Jo4n Doe" contains a digit; registration raises
the message naming the digit rule. -/
theorem new_player_validation_characterization_witness :
    raises (new_player exDB "Jo4n Doe" "US" 1234567).2 = true ∧
    "Jo4n Doe".data.any Char.isDigit = true := by
  have h := new_player_validation_characterization exDB "Jo4n Doe" "US" 1234567
  have h2 := h.2 "Player name is invalid (contains numbers)" (by rfl)
  refine ⟨by rw [h.1]; decide, ?_⟩
  rcases h2 with ⟨_, hd⟩ | ⟨hm, _⟩ | ⟨hm, _⟩ | ⟨hm, _⟩
  · exact hd
  all_goals exact absurd hm (by decide)

/-- C6 counterexample: on the name "James " (one token followed by a
space) the claim as stated is false: the name lacks a second
whitespace-delimited token, so the claim demands a ValidationError, but
new_player accepts it, because the source only tests that the space
character occurs somewhere in the name. -/
theorem new_player_spec_reject_mismatch :
    raises (new_player exDB "James " "Guam" 1234567).2 ≠
      spec_rejectName "James " := by
  decide

/-- C9: for every successfully registered player the generated code is the
first 4 characters of the lower-cased name concatenated with the decimal
numeral of the random draw, the draw of random.randrange(1000001, 9999999)
always being a 7-digit number; and the insertion happens for every
database state whatsoever, in particular regardless of any existing player
already carrying an equal code: no uniqueness check is performed. -/
theorem new_player_code_formula (db : DB) (n c : String) (r : Nat)
    (hv : name_checks n = none) (hr1 : 1000001 ≤ r) (hr2 : r < 9999999) :
    (new_player db n c r).1.players =
      db.players ++
        [⟨db.nextPlayerId, n, c,
          String.mk ((n.data.take 4).map Char.toLower) ++ toString r⟩] ∧
    10 ^ 6 ≤ r ∧ r < 10 ^ 7 ∧
    (new_player db n c r).2 = .ok 0 := by
  refine ⟨?_, by omega, by omega, ?_⟩
  · simp [new_player, hv, logger, register_player]
  · simp [new_player, hv]

/-- C9 witness: registering "James Dean" with draw 1234567 into a database
that already holds a player with code "jame1234567" still appends the new
row with that same code. -/
theorem new_player_code_formula_witness :
    (new_player exCollisionDB "James Dean" "US" 1234567).1.players =
      exCollisionDB.players ++ [⟨2, "James Dean", "US", "jame1234567"⟩] ∧
    (∃ row ∈ exCollisionDB.players, row.code = "jame1234567") := by
  have h := new_player_code_formula exCollisionDB "James Dean" "US" 1234567
    (by rfl) (by norm_num) (by norm_num)
  refine ⟨?_, ⟨⟨1, "Jameson Dean", "US", "jame1234567"⟩, by decide, rfl⟩⟩
  rw [h.1]
  decide

/-- C2: when both id arguments resolve to players with (non-empty) display
names, go_match succeeds, appends exactly one match row, the winner code
of that row is the code of one of the two resolved players, and the draw
decides the winner symmetrically: player 1 wins exactly on draw 2, player
2 exactly on draw 1 (the two equally likely values of
random.randrange(1, 3)). -/
theorem go_match_uniform_winner (db : DB) (r ts : Nat)
    (p1 p2 c1 n1 c2 n2 : String)
    (h1 : resolvePlayer db p1 = .ok (c1, n1))
    (h2 : resolvePlayer db p2 = .ok (c2, n2))
    (hn1 : n1 ≠ "") (hn2 : n2 ≠ "") :
    (go_match db r ts p1 p2).2 = .ok (if r = 2 then c1 else c2) ∧
    (go_match db r ts p1 p2).1.matchRows =
      db.matchRows ++
        [⟨db.nextMatchId, p1, p2, (if r = 2 then c1 else c2), ts⟩] ∧
    ((if r = 2 then c1 else c2) = c1 ∨ (if r = 2 then c1 else c2) = c2) ∧
    (r = 2 → (if r = 2 then c1 else c2) = c1) ∧
    (r = 1 → (if r = 2 then c1 else c2) = c2) := by
  have hcond : ¬(n1 = "" ∨ n2 = "") := by
    rintro (h | h) <;> [exact hn1 h; exact hn2 h]
  by_cases hr2 : r = 2 <;>
    simp only [go_match, resolvePlayer_logger, h1, h2] <;>
    rw [if_neg hcond] <;>
    simp [hr2, logger, report_match]

/-- C2 witness: in the two-player sample database, draw 1 makes player 2
win and exactly one match row is appended. -/
theorem go_match_uniform_winner_witness :
    (go_match exDB 1 7 "1" "2").2 = .ok "bob 7654321" ∧
    (go_match exDB 1 7 "1" "2").1.matchRows =
      exDB.matchRows ++ [⟨1, "1", "2", "bob 7654321", 7⟩] := by
  have h := go_match_uniform_winner exDB 1 7 "1" "2"
    "alic1234567" "Alice Smith" "bob 7654321" "Bob Jones"
    (by rfl) (by rfl) (by decide) (by decide)
  exact ⟨by simpa using h.1, by simpa using h.2.1⟩

/-- C3: an id argument that is not a well-formed positive integer makes
go_match fail with the ValidationError of the modelled id search, and the
match ledger is left unchanged: the failure precedes any match write. -/
theorem go_match_malformed_id_validation (db : DB) (r ts : Nat)
    (p1 p2 : String)
    (h : wellFormedId p1 = false ∨ wellFormedId p2 = false) :
    (go_match db r ts p1 p2).2 =
      .error (.validation "Player ID must be a well-formed positive integer.") ∧
    (go_match db r ts p1 p2).1.matchRows = db.matchRows := by
  rcases h with h | h
  · simp only [go_match, resolvePlayer_logger,
      resolvePlayer_malformed db p1 h]
    simp [logger]
  · by_cases h1 : wellFormedId p1
    · obtain ⟨⟨c1, n1⟩, hcn⟩ := resolvePlayer_wellFormed db p1 h1
      simp only [go_match, resolvePlayer_logger, hcn,
        resolvePlayer_malformed db p2 h]
      simp [logger]
    · simp only [Bool.not_eq_true] at h1
      simp only [go_match, resolvePlayer_logger,
        resolvePlayer_malformed db p1 h1]
      simp [logger]

/-- C3 witness: the letter id "A" raises the validation error and writes
no match row. -/
theorem go_match_malformed_id_validation_witness :
    (go_match exDB 1 7 "A" "2").2 =
      .error (.validation "Player ID must be a well-formed positive integer.") ∧
    (go_match exDB 1 7 "A" "2").1.matchRows = exDB.matchRows :=
  go_match_malformed_id_validation exDB 1 7 "A" "2" (Or.inl (by rfl))

/-- C10: whenever go_match raises the not-found error (an id did not
resolve to an existing player), the match ledger and the players table are
unchanged and the audit log received only the single "Starting match"
entry of line 141: neither the match write of line 172 nor its
"Reported win to database." record happened. -/
theorem go_match_error_no_match_write (db : DB) (r ts : Nat)
    (p1 p2 msg : String)
    (h : (go_match db r ts p1 p2).2 = .error (.notFound msg)) :
    (go_match db r ts p1 p2).1.matchRows = db.matchRows ∧
    (go_match db r ts p1 p2).1.players = db.players ∧
    (go_match db r ts p1 p2).1.auditlog =
      db.auditlog ++
        [⟨"Starting match between " ++ p1 ++ " and " ++ p2, "go_match()"⟩] := by
  rcases hc1 : resolvePlayer db p1 with e1 | ⟨c1, n1⟩
  · simp only [go_match, resolvePlayer_logger, hc1]
    simp [logger]
  · rcases hc2 : resolvePlayer db p2 with e2 | ⟨c2, n2⟩
    · simp only [go_match, resolvePlayer_logger, hc1, hc2]
      simp [logger]
    · by_cases hcond : n1 = "" ∨ n2 = ""
      · simp only [go_match, resolvePlayer_logger, hc1, hc2]
        rw [if_pos hcond]
        simp [logger]
      · exfalso
        simp only [go_match, resolvePlayer_logger, hc1, hc2] at h
        rw [if_neg hcond] at h
        by_cases hr2 : r = 2 <;> simp [hr2] at h

/-- C10 witness: id 9 resolves to no player in the sample database; the
failed call leaves the ledger untouched and logs only the start entry. -/
theorem go_match_error_no_match_write_witness :
    (go_match exDB 1 7 "1" "9").1.matchRows = exDB.matchRows ∧
    (go_match exDB 1 7 "1" "9").1.players = exDB.players ∧
    (go_match exDB 1 7 "1" "9").1.auditlog =
      exDB.auditlog ++
        [⟨"Starting match between " ++ "1" ++ " and " ++ "9", "go_match()"⟩] :=
  go_match_error_no_match_write exDB 1 7 "1" "9"
    "One of the two players you entered does not exist." (by rfl)

/-- Pairing and pool have the same length: the zip of line 243 pairs two
orderings of the same pool. -/
theorem swiss_pairs_length (fetched : List PlayerRow) :
    (swiss_pairs fetched).length = (swiss_pool fetched).length := by
  simp [swiss_pairs, players_list1, players_list2,
    List.length_zip, List.length_insertionSort]

/-- Completed executions submit one round per pair. -/
theorem swissExecGo_count (randf : Nat → Nat) (ts : Nat)
    (l : List (PlayerRow × PlayerRow)) :
    ∀ db n, (swissExecGo randf ts db l n).2.2 = true →
      (swissExecGo randf ts db l n).2.1 = n + l.length := by
  induction l with
  | nil => intro db n _; simp [swissExecGo]
  | cons p rest ih =>
    intro db n h
    simp only [swissExecGo] at h ⊢
    rcases hgm : go_match db (randf n) ts (toString p.1.id) (toString p.2.id)
      with ⟨db2, res⟩
    rw [hgm] at h
    cases res with
    | error e => simp at h
    | ok v =>
      have := ih db2 (n + 1) h
      simp only [this, List.length_cons]
      omega

/-- C1 (amended): the pairing list has one element per remaining pool
member, not one per two of them: for an odd fetched pool of size n the
source generates n - 1 pairs plus one bye, for an even pool n pairs and no
bye (each unordered matchup therefore appears twice, once as (a, b) and
once as (b, a)); and an execution run that completes submits exactly one
go_match round per generated pair. -/
theorem swiss_pairs_count (fetched : List PlayerRow) (db : DB)
    (randf : Nat → Nat) (ts : Nat) :
    (swiss_pairs fetched).length =
      (if fetched.length % 2 = 1 then fetched.length - 1 else fetched.length) ∧
    ((swiss_bye fetched).isSome ↔ fetched.length % 2 = 1) ∧
    ((swiss_execute db randf ts fetched).2.2 = true →
      (swiss_execute db randf ts fetched).2.1 = (swiss_pairs fetched).length) := by
  refine ⟨?_, ?_, ?_⟩
  · rw [swiss_pairs_length]
    unfold swiss_pool
    split_ifs with h <;> simp [List.length_dropLast]
  · unfold swiss_bye
    split_ifs with h
    · simp only [h, iff_true, List.getLast?_isSome]
      rintro rfl
      simp at h
    · simp [h]
  · intro h
    unfold swiss_execute at h ⊢
    have := swissExecGo_count randf ts (swiss_pairs fetched) db 0 h
    omega

/-- C1 witness: two players produce two pairs (not one) and a completed
execution submits two rounds. -/
theorem swiss_pairs_count_witness :
    (swiss_execute exDB (fun _ => 1) 7 [rowAlice, rowBob]).2.2 = true ∧
    (swiss_execute exDB (fun _ => 1) 7 [rowAlice, rowBob]).2.1 =
      (swiss_pairs [rowAlice, rowBob]).length :=
  ⟨by decide,
   (swiss_pairs_count [rowAlice, rowBob] exDB (fun _ => 1) 7).2.2 (by decide)⟩

/-- C1 counterexample: on an even pool of two players the source produces
two pairs, not 2 / 2 = 1 as the claim states. -/
theorem swiss_pairs_count_counterexample :
    (swiss_pairs [rowAlice, rowBob]).length ≠ [rowAlice, rowBob].length / 2 := by
  decide

/-- C4 (code-bug evidence): swiss pairing generation on the empty player
pool completes normally with zero pairs and no bye; no EmptyPoolError (nor
any other error) is raised, the error channel being unused on every
path. -/
theorem swiss_match_empty_pool :
    swiss_match ([] : List PlayerRow) = .ok ([], none) := rfl

/-- C5 (amended): for an odd-sized pool the bye is the LAST element of the
player list in backend fetch order (src/match.py pops index count - 1
before the sort of line 198), which coincides with the player sorting last
by ascending id only when the backend returned the rows id-sorted; the bye
player is excluded from every generated pairing, hence from every
execution round. -/
theorem swiss_bye_fetch_order (fetched : List PlayerRow) (b : PlayerRow)
    (hodd : fetched.length % 2 = 1)
    (hb : fetched.getLast? = some b)
    (hnodup : (fetched.map PlayerRow.id).Nodup) :
    swiss_bye fetched = some b ∧
    ∀ p ∈ swiss_pairs fetched, p.1.id ≠ b.id ∧ p.2.id ≠ b.id := by
  have hne : fetched ≠ [] := by
    rintro rfl
    simp at hb
  have hdecomp : fetched.dropLast ++ [b] = fetched :=
    List.dropLast_append_getLast? b hb
  have hnotmem : b.id ∉ fetched.dropLast.map PlayerRow.id := by
    intro hmem
    rw [← hdecomp, List.map_append, List.nodup_append] at hnodup
    exact hnodup.2.2 hmem (by simp)
  have hpool : ∀ r ∈ swiss_pool fetched, r.id ≠ b.id := by
    intro r hr hrb
    unfold swiss_pool at hr
    rw [if_pos hodd] at hr
    exact hnotmem (hrb ▸ List.mem_map_of_mem PlayerRow.id hr)
  refine ⟨by simp [swiss_bye, hodd, hb], ?_⟩
  intro p hp
  have hmem := List.of_mem_zip hp
  rw [players_list1, List.mem_insertionSort] at hmem
  rw [players_list2, List.mem_insertionSort] at hmem
  exact ⟨hpool p.1 hmem.1, hpool p.2 hmem.2⟩

/-- C5 witness: with an id-sorted odd fetch of three players the bye is
the highest-id player and appears in no pairing. -/
theorem swiss_bye_fetch_order_witness :
    swiss_bye [rowAlice, rowBob, rowCara] = some rowCara ∧
    ∀ p ∈ swiss_pairs [rowAlice, rowBob, rowCara],
      p.1.id ≠ rowCara.id ∧ p.2.id ≠ rowCara.id :=
  swiss_bye_fetch_order [rowAlice, rowBob, rowCara] rowCara
    (by decide) (by decide) (by decide)

/-- C5 counterexample: when the backend returns the rows out of id order,
the bye is the last FETCHED player (here id 1), not the player sorting
last by ascending id (id 3): the claim as stated is false on this fetch
order. -/
theorem swiss_bye_fetch_order_counterexample :
    swiss_bye [rowBob, rowCara, rowAlice] = some rowAlice ∧
    (∀ p ∈ [rowBob, rowCara, rowAlice], p.id ≤ rowCara.id) ∧
    rowAlice.id ≠ rowCara.id := by
  decide

/-- C7 (code-bug evidence): on a database whose only match references a
winner code carried by no player, list_matches crashes with the
UnboundLocalError (its local name is read before any assignment, since the
code lookup returns no row and the local was never initialised), while
lookup_match on the very same match displays the "[PLAYER DELETED]"
sentinel, because it alone initialises the local to the empty string. -/
theorem list_matches_dangling_winner :
    (list_matches exDanglingDB).2 =
      .error (.unboundLocal "local variable name referenced before assignment") ∧
    (lookup_match exDanglingDB "1").2 = .ok ["[PLAYER DELETED]"] :=
  ⟨rfl, rfl⟩

/-- Logging leaves the winner-name resolution of the display loop
unchanged: it reads only the players table. -/
theorem listMatchesGo_logger (db : DB) (e a : String) (l : List MatchRow) :
    ∀ acc, listMatchesGo (logger db e a) l acc = listMatchesGo db l acc := by
  induction l with
  | nil => intro acc; rfl
  | cons m rest ih =>
    intro acc
    simp only [listMatchesGo]
    have hw : winnerNameStep (logger db e a) acc m.winner =
        winnerNameStep db acc m.winner := rfl
    rw [hw]
    cases winnerNameStep db acc m.winner with
    | none => rfl
    | some s => simp only [ih]

/-- C8 (amended): every successful mutating operation appends at least one
audit entry, but the growth is the number of logger calls of the
operation, not one: player creation appends three entries, match
resolution four, player deletion one, match deletion one; and the
read-only listing operations are logged too, listing players or matches
each appending two entries. -/
theorem audit_log_growth (db : DB) (n c p1 p2 pid mid : String) (r ts : Nat) :
    (name_checks n = none →
      (new_player db n c r).1.auditlog.length = db.auditlog.length + 3) ∧
    (raises (go_match db r ts p1 p2).2 = false →
      (go_match db r ts p1 p2).1.auditlog.length = db.auditlog.length + 4) ∧
    (raises (edit_player_delete db pid).2 = false →
      (edit_player_delete db pid).1.auditlog.length = db.auditlog.length + 1) ∧
    (mid ≠ "" →
      (delete_match db mid).1.auditlog.length = db.auditlog.length + 1) ∧
    ((list_players db).1.auditlog.length = db.auditlog.length + 2) ∧
    (raises (list_matches db).2 = false →
      (list_matches db).1.auditlog.length = db.auditlog.length + 2) := by
  refine ⟨?_, ?_, ?_, ?_, ?_, ?_⟩
  · intro hv
    simp [new_player, hv, logger, register_player]
  · intro hok
    rcases hc1 : resolvePlayer db p1 with e1 | ⟨c1, n1⟩
    · exfalso
      simp only [go_match, resolvePlayer_logger, hc1] at hok
      simp [raises] at hok
    · rcases hc2 : resolvePlayer db p2 with e2 | ⟨c2, n2⟩
      · exfalso
        simp only [go_match, resolvePlayer_logger, hc1, hc2] at hok
        simp [raises] at hok
      · by_cases hcond : n1 = "" ∨ n2 = ""
        · exfalso
          simp only [go_match, resolvePlayer_logger, hc1, hc2] at hok
          rw [if_pos hcond] at hok
          simp [raises] at hok
        · simp only [go_match, resolvePlayer_logger, hc1, hc2]
          rw [if_neg hcond]
          by_cases hr2 : r = 2 <;> simp [hr2, logger, report_match]
  · intro hok
    rcases hs : searchPlayersByID db pid with e | rows
    · exfalso
      simp [edit_player_delete, hs, raises] at hok
    · by_cases hrows : rows.isEmpty
      · exfalso
        simp [edit_player_delete, hs, hrows, raises] at hok
      · simp [edit_player_delete, hs, hrows, delete_player_row, logger]
  · intro hmid
    simp [delete_match, hmid, delete_match_row, logger]
  · simp [list_players, logger]
  · intro hok
    have hrows : (logger db "Listing all matches." "list_matches()").matchRows
        = db.matchRows := rfl
    rcases hgo : listMatchesGo db db.matchRows none with e | names
    · exfalso
      simp only [list_matches, hrows, listMatchesGo_logger, hgo] at hok
      simp [raises] at hok
    · simp only [list_matches, hrows, listMatchesGo_logger, hgo]
      simp [logger]

/-- C8 witness: in the sample database a successful registration grows the
log by three, a successful match resolution by four, and the read-only
player listing by two. -/
theorem audit_log_growth_witness :
    (new_player exDB "James Dean" "US" 1234567).1.auditlog.length =
      exDB.auditlog.length + 3 ∧
    (go_match exDB 1 7 "1" "2").1.auditlog.length =
      exDB.auditlog.length + 4 ∧
    (list_players exDB).1.auditlog.length = exDB.auditlog.length + 2 := by
  have h := audit_log_growth exDB "James Dean" "US" "1" "2" "1" "1" 1234567 7
  have h2 := audit_log_growth exDB "James Dean" "US" "1" "2" "1" "1" 1 7
  exact ⟨h.1 (by rfl), h2.2.1 (by rfl), h.2.2.2.2.1⟩

/-- C8 counterexample: the read-only list_players operation changes the
audit-log length (it appends two entries), contradicting the claim that no
read-only operation changes it. -/
theorem list_players_changes_audit_log :
    (list_players exDB).1.auditlog.length ≠ exDB.auditlog.length := by
  decide

end Tournament
